import Mathlib

/-!
Shallow embedding of the day-planner-backend core (TypeScript) in Lean 4.

Source files embedded:
  * src/utils/pagination.ts  (normalizePaginationQuery, calculateOffset,
    parseSortParams, createLimitOffsetClause)
  * src/models/Task.ts       (mapRowToTask, createTask, findTaskById,
    findAllTasks, getTaskCount)
  * src/models/User.ts       (mapRowToUser, createUser, findUserById,
    findUserByEmail, findUserByGoogleId, updateUser, findOrCreateUserByGoogle)
  * src/middleware/auth.ts   (verifyToken, generateToken, authenticateToken)
  * src/utils/validation.ts  (the description rule of createTaskSchema)

Modelling conventions:
  * JavaScript strings are Lean `String`s; where the code splits a string
    character-by-character (the Authorization header) they are `List Char`.
  * `undefined` and SQL `NULL` for an optional field are both `Option.none`;
    an empty string is `some ""` (distinct from `none`, as in JS).
  * JS truthiness: `""`, `0`, `NaN`, `undefined`, `null` are falsy.
  * The SQLite store is a list of rows; an INSERT appends, an UPDATE maps
    over the rows, a `WHERE key = ?` lookup is `List.find?`.
  * Effects (uuidv4(), new Date().toISOString()) become explicit arguments
    `freshId` / `now` supplied by the caller.
  * The jsonwebtoken library is modelled concretely: a signed token is the
    signing secret, payload fields and decimal expiry joined with `|`;
    verification re-parses and checks the secret and expiry, which mirrors
    signature checking plus expiry checking at the level of observable
    behaviour (verify succeeds iff secret matches and the token is not
    expired, and fails on anything unparsable).
-/

namespace DayPlanner

/-! ## JavaScript primitives -/

/-- Outcome of JavaScript `Number(x)` restricted to the integral values the
claims are about: `nan` models a non-numeric input (absent, or a string that
does not parse). -/
inductive JSNum where
  | nan : JSNum
  | num : Int → JSNum
deriving DecidableEq, Repr

/-- JS `x || d` for a number `x`: `NaN` and `0` are falsy. -/
def jsNumOr (x : JSNum) (d : Int) : Int :=
  match x with
  | .nan => d
  | .num n => if n = 0 then d else n

/-- JS `x || d` for an optional string `x`: `undefined` and `""` are falsy. -/
def jsStrOr (x : Option String) (d : String) : String :=
  match x with
  | some s => if s = "" then d else s
  | none => d

/-- JS `x || null` for an optional string: `""` and `undefined` both become
`null` (`none`). -/
def jsStrOrNull (x : Option String) : Option String :=
  match x with
  | some s => if s = "" then none else some s
  | none => none

/-- JS truthiness of an optional string. -/
def truthyStr (x : Option String) : Bool :=
  match x with
  | some s => s ≠ ""
  | none => false

/-- JS truthiness of an optional number (as used for `filters.limit`). -/
def truthyInt (x : Option Int) : Bool :=
  match x with
  | some n => n ≠ 0
  | none => false

/-- JS `x || d` for an optional number. -/
def jsIntOr (x : Option Int) (d : Int) : Int :=
  match x with
  | some n => if n = 0 then d else n
  | none => d

/-! ## src/utils/pagination.ts -/

def DEFAULT_PAGE : Int := 1

def DEFAULT_LIMIT : Int := 20

def MAX_LIMIT : Int := 100

/-- Input to `normalizePaginationQuery`: raw query values after JS `Number`
coercion for `page`/`limit`. -/
structure PaginationQueryIn where
  page : JSNum
  limit : JSNum
  sortBy : Option String
  sortOrder : Option String
deriving DecidableEq, Repr

/-- Output of `normalizePaginationQuery` (the `PaginationOptions` interface). -/
structure PaginationOptions where
  page : Int
  limit : Int
  sortBy : Option String
  sortOrder : String
  maxLimit : Int
deriving DecidableEq, Repr

/-- `normalizePaginationQuery` from src/utils/pagination.ts:
`page = Math.max(1, Number(query.page) || DEFAULT_PAGE)`,
`limit = Math.min(Math.max(1, Number(query.limit) || DEFAULT_LIMIT), MAX_LIMIT)`,
`sortOrder = query.sortOrder === 'desc' ? 'desc' : 'asc'`. -/
def normalizePaginationQuery (q : PaginationQueryIn) : PaginationOptions :=
  { page := max 1 (jsNumOr q.page DEFAULT_PAGE)
    limit := min (max 1 (jsNumOr q.limit DEFAULT_LIMIT)) MAX_LIMIT
    sortBy := q.sortBy
    sortOrder := if q.sortOrder = some "desc" then "desc" else "asc"
    maxLimit := MAX_LIMIT }

/-- `calculateOffset(page, limit) = (page - 1) * limit`. -/
def calculateOffset (page limit : Int) : Int :=
  (page - 1) * limit

/-- `parseSortParams(sortBy?, sortOrder?, allowedSortFields)`:
`validSortBy = allowedSortFields.length > 0 && sortBy &&
allowedSortFields.includes(sortBy) ? sortBy : (allowedSortFields[0] || 'createdAt')`;
`validSortOrder = sortOrder === 'desc' ? 'desc' : 'asc'`. -/
def parseSortParams (sortBy sortOrder : Option String)
    (allowedSortFields : List String) : String × String :=
  let fallback := jsStrOr allowedSortFields.head? "createdAt"
  let validSortBy :=
    match sortBy with
    | some s =>
        if allowedSortFields ≠ [] ∧ s ≠ "" ∧ s ∈ allowedSortFields then s
        else fallback
    | none => fallback
  let validSortOrder := if sortOrder = some "desc" then "desc" else "asc"
  (validSortBy, validSortOrder)

/-- `createLimitOffsetClause(page, limit)` interpolates both numbers into the
SQL text. -/
def createLimitOffsetClause (page limit : Int) : String :=
  "LIMIT " ++ toString limit ++ " OFFSET " ++ toString (calculateOffset page limit)

/-! ## src/models/Task.ts : data model -/

/-- A value bound as a SQL parameter (the `params` array). -/
inductive SqlParam where
  | intv : Int → SqlParam
  | textv : String → SqlParam
deriving DecidableEq, Repr

/-- A row of the `tasks` table. `userId` is the owner column from the
`CREATE TABLE` in src/database/init.ts (`userId TEXT NOT NULL`); a later
variant of init.ts migrates it away, and the current model/route code never
reads or writes it, so it is `Option String` here: pre-existing rows may
carry an owner, rows written by `createTask` carry `none`. `completed` is
the SQLite integer 0/1. -/
structure TaskRow where
  id : String
  userId : Option String
  title : String
  description : Option String
  completed : Int
  priority : String
  dueDate : Option String
  createdAt : String
  updatedAt : String
deriving DecidableEq, Repr

/-- The `Task` interface as produced by `mapRowToTask` / `createTask`
(no `userId` field is ever populated by the code). -/
structure Task where
  id : String
  title : String
  description : Option String
  completed : Bool
  priority : String
  dueDate : Option String
  createdAt : String
  updatedAt : String
deriving DecidableEq, Repr

/-- The `CreateTaskRequest` interface. -/
structure CreateTaskRequest where
  title : String
  description : Option String
  priority : Option String
  dueDate : Option String
deriving DecidableEq, Repr

/-- The `TaskFilters` interface (extends `PaginationQuery`). -/
structure TaskFilters where
  page : Option Int
  limit : Option Int
  sortBy : Option String
  sortOrder : Option String
  completed : Option Bool
  priority : Option String
  dueDateFrom : Option String
  dueDateTo : Option String
deriving DecidableEq, Repr

/-- `TaskFilters` with every field absent. -/
def noFilters : TaskFilters :=
  ⟨none, none, none, none, none, none, none, none⟩

/-- `mapRowToTask`: `completed: Boolean(row.completed)`. -/
def mapRowToTask (row : TaskRow) : Task :=
  { id := row.id
    title := row.title
    description := row.description
    completed := row.completed ≠ 0
    priority := row.priority
    dueDate := row.dueDate
    createdAt := row.createdAt
    updatedAt := row.updatedAt }

/-- `createTask`: INSERT of
`(id, title, description || null, priority || 'medium', dueDate || null, now, now)`
(the `completed` column takes its schema default 0), then the task object is
returned directly from the request data instead of re-reading the row. -/
def createTask (freshId now : String) (taskData : CreateTaskRequest)
    (db : List TaskRow) : Task × List TaskRow :=
  let row : TaskRow :=
    { id := freshId
      userId := none
      title := taskData.title
      description := jsStrOrNull taskData.description
      completed := 0
      priority := jsStrOr taskData.priority "medium"
      dueDate := jsStrOrNull taskData.dueDate
      createdAt := now
      updatedAt := now }
  let returned : Task :=
    { id := freshId
      title := taskData.title
      description := taskData.description
      completed := false
      priority := jsStrOr taskData.priority "medium"
      dueDate := taskData.dueDate
      createdAt := now
      updatedAt := now }
  (returned, db ++ [row])

/-- `findTaskById`: `SELECT * FROM tasks WHERE id = ?`, first matching row. -/
def findTaskById (id : String) (db : List TaskRow) : Option Task :=
  (db.find? (fun r => r.id == id)).map mapRowToTask

/-! ## src/models/Task.ts : findAllTasks query text -/

/-- The `allowedSortFields` constant inside `findAllTasks`. -/
def allowedSortFields : List String :=
  ["title", "completed", "priority", "dueDate", "createdAt", "updatedAt"]

/-- `if (filters.completed !== undefined) query += ' AND completed = ?'`. -/
def completedClause (c : Option Bool) : String × List SqlParam :=
  match c with
  | some b => (" AND completed = ?", [.intv (if b then 1 else 0)])
  | none => ("", [])

/-- `if (filters.priority) query += ' AND priority = ?'`. -/
def priorityClause (p : Option String) : String × List SqlParam :=
  match p with
  | some s => if s = "" then ("", []) else (" AND priority = ?", [.textv s])
  | none => ("", [])

/-- `if (filters.dueDateFrom) query += ' AND dueDate >= ?'`. -/
def dueDateFromClause (d : Option String) : String × List SqlParam :=
  match d with
  | some s => if s = "" then ("", []) else (" AND dueDate >= ?", [.textv s])
  | none => ("", [])

/-- `if (filters.dueDateTo) query += ' AND dueDate <= ?'`. -/
def dueDateToClause (d : Option String) : String × List SqlParam :=
  match d with
  | some s => if s = "" then ("", []) else (" AND dueDate <= ?", [.textv s])
  | none => ("", [])

/-- The SQL text and bound-parameter list built by `findAllTasks`: the base
query, the four optional filter clauses appended in order, the ORDER BY
with the `parseSortParams`-resolved field and direction interpolated, and —
only when `filters.limit` is truthy —
`` ` LIMIT ${filters.limit} OFFSET ${offset}` `` with
`offset = calculateOffset(filters.page || 1, filters.limit)`; the limit and
offset are interpolated into the text, not pushed onto `params`. -/
def findAllTasksQuery (filters : TaskFilters) : String × List SqlParam :=
  let c := completedClause filters.completed
  let p := priorityClause filters.priority
  let df := dueDateFromClause filters.dueDateFrom
  let dt := dueDateToClause filters.dueDateTo
  let sort := parseSortParams filters.sortBy filters.sortOrder allowedSortFields
  let base := "SELECT * FROM tasks WHERE 1=1" ++ c.1 ++ p.1 ++ df.1 ++ dt.1
    ++ " ORDER BY " ++ sort.1 ++ " " ++ sort.2
  let text :=
    if truthyInt filters.limit then
      let lim := filters.limit.getD 0
      base ++ " LIMIT " ++ toString lim ++ " OFFSET "
        ++ toString (calculateOffset (jsIntOr filters.page 1) lim)
    else base
  (text, c.2 ++ p.2 ++ df.2 ++ dt.2)

/-- Which filter clauses are present in a `TaskFilters` value: the strict
`!== undefined` presence of `completed` and the JS truthiness of `priority`,
`dueDateFrom`, `dueDateTo` and `limit`. -/
def filterShape (f : TaskFilters) : Bool × Bool × Bool × Bool × Bool :=
  (f.completed.isSome, truthyStr f.priority, truthyStr f.dueDateFrom,
    truthyStr f.dueDateTo, truthyInt f.limit)

/-! ## src/models/Task.ts : query semantics

The SQL engine is modelled by executing the same predicates the built query
expresses: conjunctive filtering, ORDER BY over the resolved column with
SQLite's value ordering (NULL < numbers < text, text compared
lexicographically), then OFFSET/LIMIT. -/

/-- Lexicographic order on char lists (SQLite text comparison). -/
def charListLe : List Char → List Char → Bool
  | [], _ => true
  | _ :: _, [] => false
  | a :: as, b :: bs =>
      if a = b then charListLe as bs
      else a.toNat ≤ b.toNat

/-- Text comparison used for the `dueDate >= ? / <= ?` predicates. -/
def strLe (a b : String) : Bool :=
  charListLe a.toList b.toList

/-- A SQLite column value, for ordering. -/
inductive SqlVal where
  | nullv : SqlVal
  | intv : Int → SqlVal
  | textv : String → SqlVal
deriving DecidableEq, Repr

/-- SQLite ordering: NULL < integers < text. -/
def sqlValLe : SqlVal → SqlVal → Bool
  | .nullv, _ => true
  | .intv _, .nullv => false
  | .intv a, .intv b => a ≤ b
  | .intv _, .textv _ => true
  | .textv _, .nullv => false
  | .textv _, .intv _ => false
  | .textv a, .textv b => strLe a b

/-- The column selected by the resolved sort field. -/
def sortColumn (sortBy : String) (r : TaskRow) : SqlVal :=
  if sortBy = "title" then .textv r.title
  else if sortBy = "completed" then .intv r.completed
  else if sortBy = "priority" then .textv r.priority
  else if sortBy = "dueDate" then
    match r.dueDate with
    | some d => .textv d
    | none => .nullv
  else if sortBy = "createdAt" then .textv r.createdAt
  else if sortBy = "updatedAt" then .textv r.updatedAt
  else .nullv

/-- Stable insertion into a sorted list. -/
def insertSorted (le : TaskRow → TaskRow → Bool) (x : TaskRow) :
    List TaskRow → List TaskRow
  | [] => [x]
  | y :: ys => if le x y then x :: y :: ys else y :: insertSorted le x ys

/-- Stable insertion sort (the ORDER BY). -/
def insertionSort (le : TaskRow → TaskRow → Bool) : List TaskRow → List TaskRow
  | [] => []
  | x :: xs => insertSorted le x (insertionSort le xs)

/-- The WHERE predicate of `findAllTasks` (and of `getTaskCount`): each
present filter must match; a `dueDate` range predicate is false on a NULL
`dueDate` (SQL three-valued comparison with NULL is not true). -/
def rowMatchesFilters (f : TaskFilters) (r : TaskRow) : Bool :=
  (match f.completed with
   | some b => r.completed == (if b then (1 : Int) else 0)
   | none => true) &&
  (match f.priority with
   | some s => if s = "" then true else r.priority == s
   | none => true) &&
  (match f.dueDateFrom with
   | some s =>
       if s = "" then true
       else match r.dueDate with
            | some d => strLe s d
            | none => false
   | none => true) &&
  (match f.dueDateTo with
   | some s =>
       if s = "" then true
       else match r.dueDate with
            | some d => strLe d s
            | none => false
   | none => true)

/-- Execution of the query built by `findAllTasks`: filter, sort by the
resolved field/direction, apply OFFSET/LIMIT when a truthy limit is present,
then `rows.map(mapRowToTask)`. No owner predicate exists anywhere. -/
def findAllTasks (filters : TaskFilters) (db : List TaskRow) : List Task :=
  let rows := db.filter (rowMatchesFilters filters)
  let sort := parseSortParams filters.sortBy filters.sortOrder allowedSortFields
  let le : TaskRow → TaskRow → Bool :=
    if sort.2 = "desc" then fun a b => sqlValLe (sortColumn sort.1 b) (sortColumn sort.1 a)
    else fun a b => sqlValLe (sortColumn sort.1 a) (sortColumn sort.1 b)
  let sorted := insertionSort le rows
  let paged :=
    if truthyInt filters.limit then
      let lim := filters.limit.getD 0
      let offset := calculateOffset (jsIntOr filters.page 1) lim
      (sorted.drop offset.toNat).take lim.toNat
    else sorted
  paged.map mapRowToTask

/-- `getTaskCount`: `SELECT COUNT(*) ... WHERE 1=1` plus the same four
filter clauses; `row?.count || 0`. -/
def getTaskCount (f : TaskFilters) (db : List TaskRow) : Int :=
  ((db.filter (rowMatchesFilters f)).length : Int)

/-! ## src/utils/validation.ts : the description rule of createTaskSchema -/

/-- `description: Joi.string().allow('').max(1000)` — an absent description
or any string of at most 1000 characters (the empty string included) passes
request validation. -/
def createTaskSchemaDescriptionOk (d : Option String) : Bool :=
  match d with
  | none => true
  | some s => s.length ≤ 1000

/-! ## src/models/User.ts -/

/-- A row of the `users` table (src/database/init.ts):
`googleId TEXT UNIQUE NOT NULL`, `verified` stored as 0/1. -/
structure UserRow where
  id : String
  googleId : String
  email : String
  name : String
  picture : Option String
  verified : Int
  createdAt : String
  updatedAt : String
deriving DecidableEq, Repr

/-- The `User` interface. -/
structure User where
  id : String
  googleId : String
  email : String
  name : String
  picture : Option String
  verified : Bool
  createdAt : String
  updatedAt : String
deriving DecidableEq, Repr, Inhabited

/-- The `CreateUserRequest` interface. -/
structure CreateUserRequest where
  googleId : String
  email : String
  name : String
  picture : Option String
  verified : Option Bool
deriving DecidableEq, Repr

/-- The `UpdateUserRequest` interface: only `name`, `picture`, `verified`
are updatable; `none` means the field was not supplied (`undefined`). -/
structure UpdateUserRequest where
  name : Option String
  picture : Option String
  verified : Option Bool
deriving DecidableEq, Repr

/-- The Google profile produced by `verifyGoogleToken`. -/
structure GoogleProfile where
  id : String
  email : String
  name : String
  picture : Option String
  verified : Option Bool
deriving DecidableEq, Repr

/-- `mapRowToUser`: `verified: Boolean(row.verified)`. -/
def mapRowToUser (row : UserRow) : User :=
  { id := row.id
    googleId := row.googleId
    email := row.email
    name := row.name
    picture := row.picture
    verified := row.verified ≠ 0
    createdAt := row.createdAt
    updatedAt := row.updatedAt }

/-- `createUser`: INSERT of
`(id, googleId, email, name, picture || null, verified ? 1 : 0, now, now)`,
returning the constructed object directly. -/
def createUser (freshId now : String) (userData : CreateUserRequest)
    (db : List UserRow) : User × List UserRow :=
  let row : UserRow :=
    { id := freshId
      googleId := userData.googleId
      email := userData.email
      name := userData.name
      picture := jsStrOrNull userData.picture
      verified := if userData.verified = some true then 1 else 0
      createdAt := now
      updatedAt := now }
  let returned : User :=
    { id := freshId
      googleId := userData.googleId
      email := userData.email
      name := userData.name
      picture := jsStrOrNull userData.picture
      verified := userData.verified = some true
      createdAt := now
      updatedAt := now }
  (returned, db ++ [row])

/-- `findUserById`: `SELECT * FROM users WHERE id = ?`. -/
def findUserById (id : String) (db : List UserRow) : Option User :=
  (db.find? (fun r => r.id == id)).map mapRowToUser

/-- `findUserByGoogleId`: `SELECT * FROM users WHERE googleId = ?`. -/
def findUserByGoogleId (googleId : String) (db : List UserRow) : Option User :=
  (db.find? (fun r => r.googleId == googleId)).map mapRowToUser

/-- `findUserByEmail`: `SELECT * FROM users WHERE email = ?`. -/
def findUserByEmail (email : String) (db : List UserRow) : Option User :=
  (db.find? (fun r => r.email == email)).map mapRowToUser

/-- The effect on one row of the `UPDATE users SET ... WHERE id = ?` built by
`updateUser`: each supplied field is SET, plus `updatedAt = now`. -/
def applyUserUpdate (now : String) (u : UpdateUserRequest) (r : UserRow) : UserRow :=
  let r1 := match u.name with
            | some n => { r with name := n }
            | none => r
  let r2 := match u.picture with
            | some p => { r1 with picture := some p }
            | none => r1
  let r3 := match u.verified with
            | some v => { r2 with verified := if v then 1 else 0 }
            | none => r2
  { r3 with updatedAt := now }

/-- `updateUser`: read the current row by id (returning `null` if absent);
with no supplied fields return it unchanged; otherwise run the dynamic
UPDATE and re-read. -/
def updateUser (now id : String) (updateData : UpdateUserRequest)
    (db : List UserRow) : Option User × List UserRow :=
  match findUserById id db with
  | none => (none, db)
  | some existingUser =>
      if updateData.name = none ∧ updateData.picture = none ∧
          updateData.verified = none then
        (some existingUser, db)
      else
        let db' := db.map fun r =>
          if r.id == id then applyUserUpdate now updateData r else r
        (findUserById id db', db')

/-- `findOrCreateUserByGoogle` (src/models/User.ts): lookup by Google id and
refresh `name`/`picture`/`verified`; else lookup by email and attach the
Google id (`UPDATE users SET googleId = ?, updatedAt = ? WHERE id = ?`);
else create a new user. -/
def findOrCreateUserByGoogle (freshId now : String) (googleProfile : GoogleProfile)
    (db : List UserRow) : User × List UserRow :=
  match findUserByGoogleId googleProfile.id db with
  | some user =>
      let updateData : UpdateUserRequest :=
        { name := some googleProfile.name
          picture := googleProfile.picture
          verified := googleProfile.verified }
      let res := updateUser now user.id updateData db
      (res.1.getD user, res.2)
  | none =>
  match findUserByEmail googleProfile.email db with
  | some user =>
      let db' := db.map fun r =>
        if r.id == user.id then { r with googleId := googleProfile.id, updatedAt := now }
        else r
      ((findUserById user.id db').get!, db')
  | none =>
      createUser freshId now
        { googleId := googleProfile.id
          email := googleProfile.email
          name := googleProfile.name
          picture := googleProfile.picture
          verified := some (googleProfile.verified = some true) }
        db

/-! ## src/middleware/auth.ts

The Authorization header is processed character-by-character
(`authHeader.split(' ')[1]`), so headers and tokens are `List Char` here.
The jsonwebtoken library is modelled by a concrete codec: a signed token is
`secret | userId | email | decimal expiry` and verification re-parses and
checks the embedded secret (signature) and the expiry against `now`. -/

/-- JWT payload carried in a token. -/
structure JWTPayload where
  userId : String
  email : String
deriving DecidableEq, Repr

/-- Result of the `authenticateToken` gate: either a 401 with the response
message, or the resolved user. -/
inductive AuthResult where
  | unauthorized : String → AuthResult
  | ok : User → AuthResult
deriving DecidableEq, Repr

/-- JavaScript `String.prototype.split` with a single-character separator:
splits on every occurrence, keeping empty segments. -/
def splitCh (c : Char) : List Char → List (List Char)
  | [] => [[]]
  | a :: rest =>
      match splitCh c rest with
      | [] => [[a]]
      | h :: t => if a = c then [] :: h :: t else (a :: h) :: t

/-- Decimal digit to character. -/
def digitChar : Nat → Char
  | 0 => '0'
  | 1 => '1'
  | 2 => '2'
  | 3 => '3'
  | 4 => '4'
  | 5 => '5'
  | 6 => '6'
  | 7 => '7'
  | 8 => '8'
  | _ => '9'

/-- Character to decimal digit. -/
def charVal (c : Char) : Option Nat :=
  if c = '0' then some 0
  else if c = '1' then some 1
  else if c = '2' then some 2
  else if c = '3' then some 3
  else if c = '4' then some 4
  else if c = '5' then some 5
  else if c = '6' then some 6
  else if c = '7' then some 7
  else if c = '8' then some 8
  else if c = '9' then some 9
  else none

/-- Little-endian decimal digits of `n`, with structural fuel (`fuel ≥ n`
suffices, since the recursion divides by 10). -/
def natCharsFuel : Nat → Nat → List Char
  | 0, n => [digitChar n]
  | fuel + 1, n =>
      if n < 10 then [digitChar n]
      else digitChar (n % 10) :: natCharsFuel fuel (n / 10)

/-- Little-endian decimal digit characters of `n`. -/
def natChars (n : Nat) : List Char :=
  natCharsFuel n n

/-- Parse little-endian decimal digit characters. -/
def charsNat : List Char → Option Nat
  | [] => none
  | [c] => charVal c
  | c :: rest => (charVal c).bind fun d => (charsNat rest).map fun m => d + 10 * m

/-- Build a signed token: signing secret, payload fields and expiry joined
with `|` (the model of `jwt.sign`). -/
def mkToken (secret userId email : List Char) (exp : Nat) : List Char :=
  secret ++ '|' :: (userId ++ '|' :: (email ++ '|' :: natChars exp))

/-- Parse a token back into (secret, userId, email, expiry). -/
def decodeToken (tok : List Char) : Option (List Char × List Char × List Char × Nat) :=
  match splitCh '|' tok with
  | [s, u, e, x] => (charsNat x).map fun n => (s, u, e, n)
  | _ => none

/-- The model of `jwt.verify(token, secret)`: succeeds iff the token parses,
was signed with `secret`, and is not expired at `now`. -/
def jwtVerify (secret : List Char) (now : Nat) (tok : List Char) : Option JWTPayload :=
  match decodeToken tok with
  | some (s, u, e, exp) =>
      if s = secret ∧ now < exp then some ⟨String.mk u, String.mk e⟩ else none
  | none => none

/-- `verifyToken` wraps `jwt.verify`; any failure is the opaque
`Invalid token` error, modelled as `none`. -/
def verifyToken (secret : List Char) (now : Nat) (tok : List Char) : Option JWTPayload :=
  jwtVerify secret now tok

/-- `generateToken`: sign `{userId, email}` with the secret and a 7-day
expiry (`JWT_EXPIRES_IN || '7d'`). -/
def generateToken (secret : List Char) (now : Nat) (user : User) : List Char :=
  mkToken secret user.id.toList user.email.toList (now + 7 * 24 * 60 * 60)

/-- `const token = authHeader && authHeader.split(' ')[1]` followed by the
`if (!token)` falsiness test: `none` when the header is absent or empty,
when the split has no second segment, or when that segment is empty. -/
def extractToken : Option (List Char) → Option (List Char)
  | none => none
  | some h =>
      if h = [] then none
      else
        match (splitCh ' ' h)[1]? with
        | none => none
        | some t => if t = [] then none else some t

/-- `authenticateToken`: 401 `Access token is required` without a token,
401 `Invalid or expired token` when `verifyToken` throws, 401 `User not
found` when the subject no longer exists, else resolve the user. -/
def authenticateToken (secret : List Char) (now : Nat) (db : List UserRow)
    (header : Option (List Char)) : AuthResult :=
  match extractToken header with
  | none => .unauthorized "Access token is required"
  | some tok =>
      match verifyToken secret now tok with
      | none => .unauthorized "Invalid or expired token"
      | some decoded =>
          match findUserById decoded.userId db with
          | none => .unauthorized "User not found"
          | some user => .ok user

/-- The token that C10's sentence describes, built from its words: the
substring of the header after the first space. Defined only to compare with
`extractToken`, which is what the code computes. -/
def substringAfterFirstSpace (h : List Char) : List Char :=
  (h.dropWhile (fun c => c ≠ ' ')).tail

/-! ## Helper lemmas -/

theorem find?_append_of_none {α : Type} {p : α → Bool} {l₁ l₂ : List α}
    (h : ∀ x ∈ l₁, ¬ p x) : (l₁ ++ l₂).find? p = l₂.find? p := by
  rw [List.find?_append, List.find?_eq_none.mpr h, Option.none_or]

theorem find?_key_self {α β : Type} [DecidableEq β] (key : α → β)
    {l : List α} {x : α} (hx : x ∈ l) (hnd : (l.map key).Nodup) :
    l.find? (fun r => key r == key x) = some x := by
  induction l with
  | nil => cases hx
  | cons a l ih =>
      rw [List.map_cons, List.nodup_cons] at hnd
      rcases List.mem_cons.mp hx with rfl | hx'
      · simp [List.find?_cons]
      · have hne : key a ≠ key x := by
          intro he
          exact hnd.1 (he ▸ List.mem_map_of_mem key hx')
        have : (key a == key x) = false := beq_eq_false_iff_ne.mpr hne
        rw [List.find?_cons, this]
        exact ih hx' hnd.2

theorem splitCh_ne_nil (c : Char) (l : List Char) : splitCh c l ≠ [] := by
  cases l with
  | nil => simp [splitCh]
  | cons a rest =>
      simp only [splitCh]
      rcases splitCh c rest with _ | ⟨hd, tl⟩
      · simp
      · by_cases hac : a = c <;> simp [hac]

theorem splitCh_not_mem {c : Char} {l : List Char} (h : c ∉ l) :
    splitCh c l = [l] := by
  induction l with
  | nil => rfl
  | cons a rest ih =>
      have ha : a ≠ c := fun he => h (he ▸ List.mem_cons_self a rest)
      have hr : c ∉ rest := fun hm => h (List.mem_cons_of_mem a hm)
      simp only [splitCh, ih hr]
      simp [ha]

theorem splitCh_append {c : Char} {xs : List Char} (ys : List Char)
    (h : c ∉ xs) : splitCh c (xs ++ c :: ys) = xs :: splitCh c ys := by
  induction xs with
  | nil =>
      simp only [List.nil_append, splitCh]
      rcases hr : splitCh c ys with _ | ⟨hd, tl⟩
      · exact absurd hr (splitCh_ne_nil c ys)
      · simp
  | cons a xs ih =>
      have ha : a ≠ c := fun he => h (he ▸ List.mem_cons_self a xs)
      have hx : c ∉ xs := fun hm => h (List.mem_cons_of_mem a hm)
      simp only [List.cons_append, splitCh, List.append_eq]
      rw [ih hx]
      simp [ha]

theorem digitChar_isDigit (d : Nat) : (digitChar d).isDigit = true := by
  rcases d with _ | _ | _ | _ | _ | _ | _ | _ | _ | _ | d
  all_goals first
    | decide
    | rfl

theorem natCharsFuel_ne_nil (fuel n : Nat) : natCharsFuel fuel n ≠ [] := by
  cases fuel with
  | zero => simp [natCharsFuel]
  | succ fuel => simp only [natCharsFuel]; split <;> simp

theorem mem_natCharsFuel_isDigit {fuel n : Nat} {c : Char}
    (h : c ∈ natCharsFuel fuel n) : c.isDigit = true := by
  induction fuel generalizing n with
  | zero =>
      simp only [natCharsFuel, List.mem_singleton] at h
      exact h ▸ digitChar_isDigit n
  | succ fuel ih =>
      simp only [natCharsFuel] at h
      split at h
      · rw [List.mem_singleton] at h
        exact h ▸ digitChar_isDigit n
      · rcases List.mem_cons.mp h with rfl | h'
        · exact digitChar_isDigit (n % 10)
        · exact ih h'

theorem charVal_digitChar {d : Nat} (h : d < 10) :
    charVal (digitChar d) = some d := by
  rcases d with _ | _ | _ | _ | _ | _ | _ | _ | _ | _ | d
  all_goals first
    | decide
    | (exfalso; omega)

theorem charsNat_cons_of_ne_nil {c : Char} {l : List Char} (h : l ≠ []) :
    charsNat (c :: l) =
      (charVal c).bind fun d => (charsNat l).map fun m => d + 10 * m := by
  cases l with
  | nil => exact absurd rfl h
  | cons a t => rfl

theorem charsNat_natCharsFuel {fuel n : Nat} (h : n ≤ fuel) :
    charsNat (natCharsFuel fuel n) = some n := by
  induction fuel generalizing n with
  | zero =>
      have : n = 0 := Nat.le_zero.mp h
      subst this
      decide
  | succ fuel ih =>
      by_cases hn : n < 10
      · simp only [natCharsFuel, if_pos hn]
        show charVal (digitChar n) = some n
        exact charVal_digitChar hn
      · simp only [natCharsFuel, if_neg hn]
        rw [charsNat_cons_of_ne_nil (natCharsFuel_ne_nil fuel (n / 10))]
        have hdiv : n / 10 ≤ fuel := by
          have := Nat.div_lt_self (by omega : 0 < n) (by omega : 1 < 10)
          omega
        rw [ih hdiv, charVal_digitChar (Nat.mod_lt n (by omega))]
        simp only [Option.map_some', Option.some_bind]
        congr 1
        omega

theorem charsNat_natChars (n : Nat) : charsNat (natChars n) = some n :=
  charsNat_natCharsFuel le_rfl

theorem bar_not_mem_natChars (n : Nat) : '|' ∉ natChars n := by
  intro h
  have := mem_natCharsFuel_isDigit h
  simp at this

theorem decodeToken_mkToken {secret u e : List Char} (exp : Nat)
    (hs : '|' ∉ secret) (hu : '|' ∉ u) (he : '|' ∉ e) :
    decodeToken (mkToken secret u e exp) = some (secret, u, e, exp) := by
  unfold decodeToken mkToken
  rw [splitCh_append _ hs, splitCh_append _ hu, splitCh_append _ he,
    splitCh_not_mem (bar_not_mem_natChars exp)]
  simp [charsNat_natChars]

theorem jwtVerify_mkToken {secret secret' u e : List Char} {now exp : Nat}
    (hs : '|' ∉ secret') (hu : '|' ∉ u) (he : '|' ∉ e) :
    jwtVerify secret now (mkToken secret' u e exp) =
      if secret' = secret ∧ now < exp then some ⟨String.mk u, String.mk e⟩
      else none := by
  unfold jwtVerify
  rw [decodeToken_mkToken exp hs hu he]

theorem extractToken_scheme {sch rest : List Char} (hsch : ' ' ∉ sch) :
    extractToken (some (sch ++ ' ' :: rest)) =
      match (splitCh ' ' rest)[0]? with
      | none => none
      | some t => if t = [] then none else some t := by
  have hne : sch ++ ' ' :: rest ≠ [] := by simp
  simp only [extractToken, if_neg hne]
  rw [splitCh_append rest hsch]
  rcases h : splitCh ' ' rest with _ | ⟨hd, tl⟩
  · exact absurd h (splitCh_ne_nil ' ' rest)
  · simp

theorem extractToken_some {sch tok : List Char} (hsch : ' ' ∉ sch)
    (htok : ' ' ∉ tok) (hne : tok ≠ []) :
    extractToken (some (sch ++ ' ' :: tok)) = some tok := by
  rw [extractToken_scheme hsch, splitCh_not_mem htok]
  simp [hne]

theorem extractToken_no_space {h : List Char} (hsp : ' ' ∉ h) :
    extractToken (some h) = none := by
  by_cases hn : h = []
  · simp [extractToken, hn]
  · simp only [extractToken, if_neg hn]
    rw [splitCh_not_mem hsp]
    rfl

theorem applyUserUpdate_id (now : String) (u : UpdateUserRequest) (r : UserRow) :
    (applyUserUpdate now u r).id = r.id := by
  unfold applyUserUpdate
  rcases u.name with _ | n <;> rcases u.picture with _ | p <;>
    rcases u.verified with _ | v <;> rfl

theorem applyUserUpdate_profile (now n : String) (pic : Option String)
    (ver : Option Bool) (r : UserRow) :
    (applyUserUpdate now ⟨some n, pic, ver⟩ r).name = n ∧
    (applyUserUpdate now ⟨some n, pic, ver⟩ r).picture =
      (match pic with | some q => some q | none => r.picture) ∧
    (applyUserUpdate now ⟨some n, pic, ver⟩ r).verified =
      (match ver with | some v => if v then 1 else 0 | none => r.verified) ∧
    (applyUserUpdate now ⟨some n, pic, ver⟩ r).googleId = r.googleId ∧
    (applyUserUpdate now ⟨some n, pic, ver⟩ r).email = r.email := by
  rcases pic with _ | q <;> rcases ver with _ | v <;>
    exact ⟨rfl, rfl, rfl, rfl, rfl⟩

theorem strFilterClause_text_eq {t : String} {a b : Option String}
    (h : truthyStr a = truthyStr b) :
    (match a with
     | some s => if s = "" then ("", ([] : List SqlParam)) else (t, [.textv s])
     | none => ("", [])).1 =
    (match b with
     | some s => if s = "" then ("", ([] : List SqlParam)) else (t, [.textv s])
     | none => ("", [])).1 := by
  cases a with
  | none =>
      cases b with
      | none => rfl
      | some s =>
          simp only [truthyStr] at h
          by_cases hs : s = "" <;> simp_all
  | some s =>
      cases b with
      | none =>
          simp only [truthyStr] at h
          by_cases hs : s = "" <;> simp_all
      | some s' =>
          simp only [truthyStr] at h
          by_cases hs : s = "" <;> by_cases hs' : s' = "" <;> simp_all

theorem completedClause_text_eq {a b : Option Bool} (h : a.isSome = b.isSome) :
    (completedClause a).1 = (completedClause b).1 := by
  cases a <;> cases b <;> simp_all [completedClause]

/-! ## Sample rows for concrete evaluations -/

/-- A task row owned by user `alice` (rows with an owner column exist under
the `CREATE TABLE tasks` of src/database/init.ts). -/
def aliceRow : TaskRow :=
  { id := "t1", userId := some "alice", title := "Alice task",
    description := none, completed := 0, priority := "medium",
    dueDate := none, createdAt := "2024-01-01", updatedAt := "2024-01-01" }

/-- A task row owned by user `bob`. -/
def bobRow : TaskRow :=
  { id := "t2", userId := some "bob", title := "Bob task",
    description := none, completed := 0, priority := "medium",
    dueDate := none, createdAt := "2024-01-02", updatedAt := "2024-01-02" }

/-- The create request used for the C8/C9 evaluations: a valid request whose
description is the empty string. -/
def emptyDescriptionRequest : CreateTaskRequest :=
  { title := "Buy milk", description := some "", priority := none, dueDate := none }

/-! ## Claims -/

/-- C1 (code_bug): the claim says the task listing, the by-id lookup and the
count return only tasks whose owner reference equals the requesting owner
id. The code has no owner predicate at all: `findTaskById` selects by id
alone, `findAllTasks`/`getTaskCount` filter only on the optional task
filters, and none of them takes an owner argument — with two rows owned by
`alice` and `bob`, the by-id lookup returns alice's task (to any requester),
and the unfiltered listing and count return/count both owners' tasks. -/
theorem c1_owner_scoping_absent :
    findTaskById "t1" [aliceRow, bobRow] = some (mapRowToTask aliceRow) ∧
    aliceRow.userId = some "alice" ∧ bobRow.userId = some "bob" ∧
    findAllTasks noFilters [aliceRow, bobRow] =
      [mapRowToTask aliceRow, mapRowToTask bobRow] ∧
    getTaskCount noFilters [aliceRow, bobRow] = 2 := by
  decide

/-- C2 counterexample: two filter sets with the same present-filter shape and
the same resolved sort field/direction, differing only in the value of the
`limit` filter, produce different SQL texts — the limit (and offset) are
interpolated into the text, so the text does depend on pagination values,
refuting the claim as stated. -/
theorem c2_counterexample :
    filterShape { noFilters with limit := some 1 } =
      filterShape { noFilters with limit := some 2 } ∧
    parseSortParams (noFilters.sortBy) (noFilters.sortOrder) allowedSortFields =
      parseSortParams (noFilters.sortBy) (noFilters.sortOrder) allowedSortFields ∧
    (findAllTasksQuery { noFilters with limit := some 1 }).1 ≠
      (findAllTasksQuery { noFilters with limit := some 2 }).1 := by
  decide

/-- C2 (amended): the SQL text built by `findAllTasks` depends only on the
present-filter shape, the allow-list-resolved sort field/direction, and the
`limit` and `page` pagination values (which are interpolated into the text);
filter values themselves never change the text — two runs with the same
shape, resolved sort and pagination values produce identical query strings,
whatever the filter values are. -/
theorem c2_amended (f₁ f₂ : TaskFilters)
    (hshape : filterShape f₁ = filterShape f₂)
    (hsort : parseSortParams f₁.sortBy f₁.sortOrder allowedSortFields =
      parseSortParams f₂.sortBy f₂.sortOrder allowedSortFields)
    (hlimit : f₁.limit = f₂.limit)
    (hpage : jsIntOr f₁.page 1 = jsIntOr f₂.page 1) :
    (findAllTasksQuery f₁).1 = (findAllTasksQuery f₂).1 := by
  have h1 : f₁.completed.isSome = f₂.completed.isSome :=
    congrArg (fun s => s.1) hshape
  have h2 : truthyStr f₁.priority = truthyStr f₂.priority :=
    congrArg (fun s => s.2.1) hshape
  have h3 : truthyStr f₁.dueDateFrom = truthyStr f₂.dueDateFrom :=
    congrArg (fun s => s.2.2.1) hshape
  have h4 : truthyStr f₁.dueDateTo = truthyStr f₂.dueDateTo :=
    congrArg (fun s => s.2.2.2.1) hshape
  simp only [findAllTasksQuery, priorityClause, dueDateFromClause, dueDateToClause]
  rw [hlimit, hsort, hpage, completedClause_text_eq h1,
    strFilterClause_text_eq h2, strFilterClause_text_eq h3,
    strFilterClause_text_eq h4]

/-- Concrete filter set used by the C2 witness. -/
def c2FiltersA : TaskFilters :=
  { page := some 2, limit := some 5, sortBy := none, sortOrder := none,
    completed := some true, priority := some "high",
    dueDateFrom := some "2024-01-01", dueDateTo := none }

/-- Concrete filter set with the same shape as `c2FiltersA` but different
filter values. -/
def c2FiltersB : TaskFilters :=
  { page := some 2, limit := some 5, sortBy := none, sortOrder := none,
    completed := some false, priority := some "low",
    dueDateFrom := some "2030-12-31", dueDateTo := none }

/-- C2 witness for the amended statement: two filter sets with identical
shape, sort and pagination but different completed/priority/dueDate values
yield the same SQL text. -/
theorem c2_amended_witness :
    (findAllTasksQuery c2FiltersA).1 = (findAllTasksQuery c2FiltersB).1 :=
  c2_amended c2FiltersA c2FiltersB (by decide) (by decide) (by decide) (by decide)

/-- C3 counterexample: the claim says every limit input that is `≤ 0` or
non-numeric normalizes to the default 20; but for the numeric input `-5`
(which is `≤ 0` and truthy in JS) the normalizer returns 1, because
`Number(query.limit) || 20` keeps the truthy `-5` and `Math.max(1, -5)`
clamps it to 1. -/
theorem c3_counterexample :
    ((-5 : Int) ≤ 0) ∧
    (normalizePaginationQuery ⟨.nan, .num (-5), none, none⟩).limit = 1 ∧
    (1 : Int) ≠ 20 := by
  decide

/-- C3 (amended): a non-numeric or zero limit input normalizes to the
default 20; a negative numeric limit normalizes to 1 (clamped up, not
defaulted); a limit greater than 100 normalizes to the cap 100. -/
theorem c3_amended (q : PaginationQueryIn) :
    ((q.limit = JSNum.nan ∨ q.limit = JSNum.num 0) →
      (normalizePaginationQuery q).limit = 20) ∧
    (∀ n : Int, q.limit = JSNum.num n → n < 0 →
      (normalizePaginationQuery q).limit = 1) ∧
    (∀ n : Int, q.limit = JSNum.num n → 100 < n →
      (normalizePaginationQuery q).limit = 100) := by
  refine ⟨?_, ?_, ?_⟩
  · rintro (h | h) <;>
      simp [normalizePaginationQuery, jsNumOr, h, DEFAULT_LIMIT, MAX_LIMIT]
  · intro n h hneg
    have hne : n ≠ 0 := by omega
    simp only [normalizePaginationQuery, jsNumOr, h, if_neg hne,
      DEFAULT_LIMIT, MAX_LIMIT]
    omega
  · intro n h hbig
    have hne : n ≠ 0 := by omega
    simp only [normalizePaginationQuery, jsNumOr, h, if_neg hne,
      DEFAULT_LIMIT, MAX_LIMIT]
    omega

/-- C3 witness for the amended statement at concrete inputs. -/
theorem c3_amended_witness :
    (normalizePaginationQuery ⟨.nan, .nan, none, none⟩).limit = 20 ∧
    (normalizePaginationQuery ⟨.nan, .num (-7), none, none⟩).limit = 1 ∧
    (normalizePaginationQuery ⟨.nan, .num 1000, none, none⟩).limit = 100 :=
  ⟨(c3_amended ⟨.nan, .nan, none, none⟩).1 (Or.inl rfl),
   (c3_amended ⟨.nan, .num (-7), none, none⟩).2.1 (-7) rfl (by decide),
   (c3_amended ⟨.nan, .num 1000, none, none⟩).2.2 1000 rfl (by decide)⟩

/-- C4 counterexample: with an absent sort-field input, resolution falls
back to the first element of the task allow-list, which is `title`, not
`createdAt` as the claim states. -/
theorem c4_counterexample :
    (parseSortParams none none allowedSortFields).1 = "title" ∧
    "title" ≠ "createdAt" := by
  decide

/-- C4 (amended): for every sort-field input the resolved field is a member
of the fixed allow-list, and an absent or not-allow-listed input falls back
to the list's first allowed field, which for tasks is `title`. -/
theorem c4_amended (sortBy sortOrder : Option String) :
    (parseSortParams sortBy sortOrder allowedSortFields).1 ∈ allowedSortFields ∧
    ((∀ s, sortBy = some s → s ∉ allowedSortFields) →
      (parseSortParams sortBy sortOrder allowedSortFields).1 = "title") := by
  constructor
  · cases sortBy with
    | none =>
        simp only [parseSortParams]
        decide
    | some s =>
        simp only [parseSortParams]
        by_cases hc : allowedSortFields ≠ [] ∧ s ≠ "" ∧ s ∈ allowedSortFields
        · rw [if_pos hc]
          exact hc.2.2
        · rw [if_neg hc]
          decide
  · intro hno
    cases sortBy with
    | none =>
        simp only [parseSortParams]
        decide
    | some s =>
        have hs : s ∉ allowedSortFields := hno s rfl
        have hc : ¬(allowedSortFields ≠ [] ∧ s ≠ "" ∧ s ∈ allowedSortFields) := by
          intro hcon
          exact hs hcon.2.2
        simp only [parseSortParams]
        rw [if_neg hc]
        decide

/-- C4 witness for the amended statement: a not-allow-listed input resolves
to the allow-listed `title`. -/
theorem c4_amended_witness :
    (parseSortParams (some "evil; DROP TABLE tasks") none allowedSortFields).1 ∈
      allowedSortFields ∧
    (parseSortParams (some "evil; DROP TABLE tasks") none allowedSortFields).1 =
      "title" :=
  ⟨(c4_amended (some "evil; DROP TABLE tasks") none).1,
   (c4_amended (some "evil; DROP TABLE tasks") none).2
     (by intro s hs; cases hs; decide)⟩

/-- C8 (code_bug): the claim (with the spec's words `must match exactly what
a subsequent read would return`) says the record returned by create equals
what the subsequent by-id read returns, for every valid create request. The
request titled `Buy milk` with the empty-string description — which request
validation permits — refutes that on the code: `createTask` stores
`description || null` (NULL) but returns the request's `description` (`""`)
directly, so the created record and the fetched record differ. -/
theorem c8_create_read_mismatch :
    (createTask "task-1" "2024-01-01T00:00:00.000Z" emptyDescriptionRequest []).1.description
      = some "" ∧
    (findTaskById "task-1"
        (createTask "task-1" "2024-01-01T00:00:00.000Z" emptyDescriptionRequest []).2).map
      Task.description = some none ∧
    findTaskById "task-1"
        (createTask "task-1" "2024-01-01T00:00:00.000Z" emptyDescriptionRequest []).2 ≠
      some (createTask "task-1" "2024-01-01T00:00:00.000Z" emptyDescriptionRequest []).1 ∧
    createTaskSchemaDescriptionOk (some "") = true := by
  decide

/-- C9 (confirmed): creating a task whose description is the empty string —
permitted by `createTaskSchema` — persists NULL for the description, so the
record returned by create (description `""`) differs from what a subsequent
by-id fetch returns (description `null`); the same falsy-to-null coercion
stores NULL for an absent `dueDate`. -/
theorem c9_empty_description_persists_null (freshId now : String)
    (req : CreateTaskRequest) (db : List TaskRow)
    (hdesc : req.description = some "")
    (hfresh : ∀ r ∈ db, r.id ≠ freshId) :
    (∃ row, (createTask freshId now req db).2 = db ++ [row] ∧
      row.description = none ∧
      (req.dueDate = none → row.dueDate = none)) ∧
    (createTask freshId now req db).1.description = some "" ∧
    (findTaskById freshId (createTask freshId now req db).2).map Task.description =
      some none ∧
    findTaskById freshId (createTask freshId now req db).2 ≠
      some (createTask freshId now req db).1 ∧
    createTaskSchemaDescriptionOk (some "") = true := by
  have hrow : jsStrOrNull req.description = none := by
    rw [hdesc]; rfl
  have hforall : ∀ r ∈ db, ¬ ((fun r : TaskRow => r.id == freshId) r = true) := by
    intro r hr
    simpa using hfresh r hr
  have hfind : findTaskById freshId (createTask freshId now req db).2 =
      some (mapRowToTask
        { id := freshId, userId := none, title := req.title,
          description := jsStrOrNull req.description, completed := 0,
          priority := jsStrOr req.priority "medium",
          dueDate := jsStrOrNull req.dueDate, createdAt := now,
          updatedAt := now }) := by
    unfold findTaskById createTask
    rw [find?_append_of_none hforall]
    simp [List.find?_cons]
  refine ⟨⟨_, rfl, hrow, fun hdue => by rw [hdue]; rfl⟩, ?_, ?_, ?_, rfl⟩
  · show req.description = some ""
    exact hdesc
  · rw [hfind]
    simp [mapRowToTask, hrow]
  · rw [hfind]
    intro hcontra
    have := congrArg (fun o => o.map Task.description) hcontra
    simp [mapRowToTask, hrow] at this
    have h2 : (createTask freshId now req db).1.description = some "" := hdesc
    rw [h2] at this
    cases this

/-- C9 witness at a concrete request and an empty store. -/
theorem c9_witness :
    (findTaskById "t9" (createTask "t9" "2024-02-02T00:00:00.000Z"
        emptyDescriptionRequest []).2).map Task.description = some none ∧
    (createTask "t9" "2024-02-02T00:00:00.000Z" emptyDescriptionRequest []).1.description
      = some "" :=
  ⟨(c9_empty_description_persists_null "t9" "2024-02-02T00:00:00.000Z"
      emptyDescriptionRequest [] rfl (by simp)).2.2.1,
   (c9_empty_description_persists_null "t9" "2024-02-02T00:00:00.000Z"
      emptyDescriptionRequest [] rfl (by simp)).2.1⟩

/-- C5 (confirmed): when the incoming profile's Google id matches an
existing user, `findOrCreateUserByGoogle` returns that same user (same local
id, same stored email and Google id — the profile's email, which may
differ, is never consulted on this path), with `name`, `picture` and
`verified` refreshed from the profile (`picture`/`verified` only when the
profile supplies them, since `updateUser` skips `undefined` fields), and no
user row added or removed. -/
theorem c5_resolve_by_google_id (freshId now : String) (p : GoogleProfile)
    (db : List UserRow) (u : User)
    (hnd : (db.map UserRow.id).Nodup)
    (hfound : findUserByGoogleId p.id db = some u) :
    (findOrCreateUserByGoogle freshId now p db).1.id = u.id ∧
    (findOrCreateUserByGoogle freshId now p db).1.googleId = u.googleId ∧
    (findOrCreateUserByGoogle freshId now p db).1.email = u.email ∧
    (findOrCreateUserByGoogle freshId now p db).1.name = p.name ∧
    (findOrCreateUserByGoogle freshId now p db).1.picture =
      (match p.picture with | some q => some q | none => u.picture) ∧
    (findOrCreateUserByGoogle freshId now p db).1.verified =
      (match p.verified with | some v => v | none => u.verified) ∧
    (findOrCreateUserByGoogle freshId now p db).2.map UserRow.id =
      db.map UserRow.id := by
  obtain ⟨ru, hru, hmap⟩ := Option.map_eq_some'.mp hfound
  have hmem : ru ∈ db := List.mem_of_find?_eq_some hru
  have hid : u.id = ru.id := by rw [← hmap]; rfl
  have hfindid : findUserById u.id db = some u := by
    unfold findUserById
    rw [hid, find?_key_self UserRow.id hmem hnd, Option.map_some', hmap]
  have hcond : ¬ ((some p.name : Option String) = none ∧
      p.picture = none ∧ p.verified = none) := by
    simp
  have hpresid : ∀ r : UserRow,
      (if r.id == u.id then
        applyUserUpdate now ⟨some p.name, p.picture, p.verified⟩ r else r).id
        = r.id := by
    intro r
    by_cases h : r.id == u.id
    · rw [if_pos h, applyUserUpdate_id]
    · rw [if_neg h]
  have hfun : ((fun r : UserRow => r.id == u.id) ∘
      (fun r => if r.id == u.id then
        applyUserUpdate now ⟨some p.name, p.picture, p.verified⟩ r else r)) =
      (fun r : UserRow => r.id == u.id) := by
    funext r
    simp only [Function.comp_apply, hpresid]
  have hfind' : findUserById u.id
      (db.map (fun r => if r.id == u.id then
        applyUserUpdate now ⟨some p.name, p.picture, p.verified⟩ r else r)) =
      some (mapRowToUser (applyUserUpdate now ⟨some p.name, p.picture, p.verified⟩ ru)) := by
    unfold findUserById
    rw [List.find?_map, hfun, hid, find?_key_self UserRow.id hmem hnd]
    simp
  have hmain : findOrCreateUserByGoogle freshId now p db =
      (mapRowToUser (applyUserUpdate now ⟨some p.name, p.picture, p.verified⟩ ru),
       db.map (fun r => if r.id == u.id then
         applyUserUpdate now ⟨some p.name, p.picture, p.verified⟩ r else r)) := by
    unfold findOrCreateUserByGoogle updateUser
    rw [hfound]
    simp only [hfindid, if_neg hcond, hfind', Option.getD_some]
  rw [hmain]
  have hg : ru.googleId = u.googleId := by
    have := congrArg User.googleId hmap
    simpa [mapRowToUser] using this
  have he : ru.email = u.email := by
    have := congrArg User.email hmap
    simpa [mapRowToUser] using this
  have hp : ru.picture = u.picture := by
    have := congrArg User.picture hmap
    simpa [mapRowToUser] using this
  have hv : decide (ru.verified ≠ 0) = u.verified := by
    have := congrArg User.verified hmap
    simpa [mapRowToUser] using this
  obtain ⟨hn', hp', hv', hg', he'⟩ :=
    applyUserUpdate_profile now p.name p.picture p.verified ru
  refine ⟨?_, ?_, ?_, ?_, ?_, ?_, ?_⟩
  · simp only [mapRowToUser]
    rw [applyUserUpdate_id]
    exact hid.symm
  · simp only [mapRowToUser]
    rw [hg']
    exact hg
  · simp only [mapRowToUser]
    rw [he']
    exact he
  · simp only [mapRowToUser]
    rw [hn']
  · simp only [mapRowToUser]
    rw [hp']
    rcases p.picture with _ | q
    · exact hp
    · rfl
  · simp only [mapRowToUser]
    rw [hv']
    rcases p.verified with _ | v
    · exact hv
    · rcases v with _ | _ <;> simp
  · rw [List.map_map]
    congr 1
    funext r
    simp only [Function.comp_apply, hpresid]

/-- Stored user row for the C5 witness. -/
def c5Row : UserRow :=
  { id := "u1", googleId := "g1", email := "old@example.com", name := "Old Name",
    picture := some "old.png", verified := 0, createdAt := "c0", updatedAt := "c0" }

/-- Incoming profile for the C5 witness: same Google id as `c5Row` but a
different email. -/
def c5Profile : GoogleProfile :=
  { id := "g1", email := "new@example.com", name := "New Name",
    picture := some "new.png", verified := some true }

/-- C5 witness: resolving a profile whose Google id matches `c5Row` but
whose email differs returns the same local user with its stored email and
Google id intact and its name refreshed. -/
theorem c5_witness :
    (findOrCreateUserByGoogle "fresh" "now1" c5Profile [c5Row]).1.id = "u1" ∧
    (findOrCreateUserByGoogle "fresh" "now1" c5Profile [c5Row]).1.googleId = "g1" ∧
    (findOrCreateUserByGoogle "fresh" "now1" c5Profile [c5Row]).1.email =
      "old@example.com" ∧
    (findOrCreateUserByGoogle "fresh" "now1" c5Profile [c5Row]).1.name =
      "New Name" := by
  have h := c5_resolve_by_google_id "fresh" "now1" c5Profile [c5Row]
    (mapRowToUser c5Row) (by decide) (by decide)
  exact ⟨h.1, h.2.1, h.2.2.1, h.2.2.2.1⟩

/-- C6 (confirmed): when no user matches the profile's Google id but one
matches its email, `findOrCreateUserByGoogle` persists the profile's Google
id onto that user (`UPDATE users SET googleId = ?, updatedAt = ?`), returns
the now-linked record (same local id and email, Google id set to the
profile's), and creates no new user (the set of row ids is unchanged). -/
theorem c6_link_by_email (freshId now : String) (p : GoogleProfile)
    (db : List UserRow) (u : User)
    (hnd : (db.map UserRow.id).Nodup)
    (hgid : findUserByGoogleId p.id db = none)
    (hmail : findUserByEmail p.email db = some u) :
    (findOrCreateUserByGoogle freshId now p db).1.id = u.id ∧
    (findOrCreateUserByGoogle freshId now p db).1.googleId = p.id ∧
    (findOrCreateUserByGoogle freshId now p db).1.email = u.email ∧
    findUserById u.id (findOrCreateUserByGoogle freshId now p db).2 =
      some (findOrCreateUserByGoogle freshId now p db).1 ∧
    (findOrCreateUserByGoogle freshId now p db).2.map UserRow.id =
      db.map UserRow.id := by
  obtain ⟨ru, hru, hmap⟩ := Option.map_eq_some'.mp hmail
  have hmem : ru ∈ db := List.mem_of_find?_eq_some hru
  have hid : u.id = ru.id := by rw [← hmap]; rfl
  have hpresid : ∀ r : UserRow,
      (if r.id == u.id then { r with googleId := p.id, updatedAt := now }
        else r).id = r.id := by
    intro r
    by_cases h : r.id == u.id
    · rw [if_pos h]
    · rw [if_neg h]
  have hfun : ((fun r : UserRow => r.id == u.id) ∘
      (fun r => if r.id == u.id then { r with googleId := p.id, updatedAt := now }
        else r)) = (fun r : UserRow => r.id == u.id) := by
    funext r
    simp only [Function.comp_apply, hpresid]
  have hfind' : findUserById u.id
      (db.map (fun r => if r.id == u.id then
        { r with googleId := p.id, updatedAt := now } else r)) =
      some (mapRowToUser { ru with googleId := p.id, updatedAt := now }) := by
    unfold findUserById
    rw [List.find?_map, hfun, hid, find?_key_self UserRow.id hmem hnd]
    simp
  have hmain : findOrCreateUserByGoogle freshId now p db =
      (mapRowToUser { ru with googleId := p.id, updatedAt := now },
       db.map (fun r => if r.id == u.id then
         { r with googleId := p.id, updatedAt := now } else r)) := by
    unfold findOrCreateUserByGoogle
    rw [hgid, hmail]
    simp only [hfind']
    rfl
  rw [hmain]
  have he : ru.email = u.email := by
    have := congrArg User.email hmap
    simpa [mapRowToUser] using this
  refine ⟨?_, rfl, ?_, ?_, ?_⟩
  · simp only [mapRowToUser]
    exact hid.symm
  · simp only [mapRowToUser]
    exact he
  · exact hfind'
  · rw [List.map_map]
    congr 1
    funext r
    simp only [Function.comp_apply, hpresid]

/-- Stored user row for the C6 witness: no Google link matching the incoming
profile. -/
def c6Row : UserRow :=
  { id := "u2", googleId := "gOld", email := "shared@example.com",
    name := "Local Account", picture := none, verified := 1,
    createdAt := "c0", updatedAt := "c0" }

/-- Incoming profile for the C6 witness: fresh Google id, matching email. -/
def c6Profile : GoogleProfile :=
  { id := "gNew", email := "shared@example.com", name := "IdP Name",
    picture := none, verified := some true }

/-- C6 witness: the email-matched user is linked to the profile's Google id
and no new user is created. -/
theorem c6_witness :
    (findOrCreateUserByGoogle "fresh" "now1" c6Profile [c6Row]).1.id = "u2" ∧
    (findOrCreateUserByGoogle "fresh" "now1" c6Profile [c6Row]).1.googleId =
      "gNew" ∧
    (findOrCreateUserByGoogle "fresh" "now1" c6Profile [c6Row]).2.map UserRow.id =
      ["u2"] := by
  have h := c6_link_by_email "fresh" "now1" c6Profile [c6Row]
    (mapRowToUser c6Row) (by decide) (by decide) (by decide)
  exact ⟨h.1, h.2.1, h.2.2.2.2⟩

/-- C7 (confirmed): the `authenticateToken` gate responds 401 Unauthorized
when the Authorization header is missing; when it is malformed (no
space-separated second segment); when the presented token was signed with a
wrong secret; when the token is expired (`exp ≤ now`); and when the token is
valid but its subject user no longer exists in the store. With a valid token
whose subject exists, it resolves that user. -/
theorem c7_authenticate_cases (secret : List Char) (now : Nat) (db : List UserRow) :
    (authenticateToken secret now db none =
      .unauthorized "Access token is required") ∧
    (∀ h : List Char, ' ' ∉ h →
      authenticateToken secret now db (some h) =
        .unauthorized "Access token is required") ∧
    (∀ sch s' uid eml exp, ' ' ∉ sch → ' ' ∉ mkToken s' uid eml exp →
      '|' ∉ s' → '|' ∉ uid → '|' ∉ eml → s' ≠ secret →
      authenticateToken secret now db
          (some (sch ++ ' ' :: mkToken s' uid eml exp)) =
        .unauthorized "Invalid or expired token") ∧
    (∀ sch uid eml exp, ' ' ∉ sch → ' ' ∉ mkToken secret uid eml exp →
      '|' ∉ secret → '|' ∉ uid → '|' ∉ eml → exp ≤ now →
      authenticateToken secret now db
          (some (sch ++ ' ' :: mkToken secret uid eml exp)) =
        .unauthorized "Invalid or expired token") ∧
    (∀ sch uid eml exp, ' ' ∉ sch → ' ' ∉ mkToken secret uid eml exp →
      '|' ∉ secret → '|' ∉ uid → '|' ∉ eml → now < exp →
      findUserById (String.mk uid) db = none →
      authenticateToken secret now db
          (some (sch ++ ' ' :: mkToken secret uid eml exp)) =
        .unauthorized "User not found") ∧
    (∀ sch uid eml exp u, ' ' ∉ sch → ' ' ∉ mkToken secret uid eml exp →
      '|' ∉ secret → '|' ∉ uid → '|' ∉ eml → now < exp →
      findUserById (String.mk uid) db = some u →
      authenticateToken secret now db
          (some (sch ++ ' ' :: mkToken secret uid eml exp)) = .ok u) := by
  refine ⟨rfl, ?_, ?_, ?_, ?_, ?_⟩
  · intro h hsp
    unfold authenticateToken
    rw [extractToken_no_space hsp]
  · intro sch s' uid eml exp hsch hstok hs' hu he hne
    have htokne : mkToken s' uid eml exp ≠ [] := by simp [mkToken]
    have hv : jwtVerify secret now (mkToken s' uid eml exp) = none := by
      rw [jwtVerify_mkToken hs' hu he, if_neg (fun hand => hne hand.1)]
    unfold authenticateToken
    rw [extractToken_some hsch hstok htokne]
    simp only [verifyToken, hv]
  · intro sch uid eml exp hsch hstok hs hu he hexp
    have htokne : mkToken secret uid eml exp ≠ [] := by simp [mkToken]
    have hv : jwtVerify secret now (mkToken secret uid eml exp) = none := by
      rw [jwtVerify_mkToken hs hu he, if_neg (fun hand => by omega)]
    unfold authenticateToken
    rw [extractToken_some hsch hstok htokne]
    simp only [verifyToken, hv]
  · intro sch uid eml exp hsch hstok hs hu he hexp hnouser
    have htokne : mkToken secret uid eml exp ≠ [] := by simp [mkToken]
    have hv : jwtVerify secret now (mkToken secret uid eml exp) =
        some ⟨String.mk uid, String.mk eml⟩ := by
      rw [jwtVerify_mkToken hs hu he, if_pos ⟨rfl, hexp⟩]
    unfold authenticateToken
    rw [extractToken_some hsch hstok htokne]
    simp only [verifyToken, hv, hnouser]
  · intro sch uid eml exp u hsch hstok hs hu he hexp hfound
    have htokne : mkToken secret uid eml exp ≠ [] := by simp [mkToken]
    have hv : jwtVerify secret now (mkToken secret uid eml exp) =
        some ⟨String.mk uid, String.mk eml⟩ := by
      rw [jwtVerify_mkToken hs hu he, if_pos ⟨rfl, hexp⟩]
    unfold authenticateToken
    rw [extractToken_some hsch hstok htokne]
    simp only [verifyToken, hv, hfound]

/-- Stored user row for the C7 witness. -/
def c7Row : UserRow :=
  { id := "u7", googleId := "g7", email := "a@b", name := "N",
    picture := none, verified := 1, createdAt := "c0", updatedAt := "c0" }

/-- C7 witness: concrete 401 responses for a missing header, a bare-token
header, a token signed with the wrong secret, an expired token, a valid
token whose subject was deleted, and a success case. -/
theorem c7_witness :
    authenticateToken "sek".toList 5 [c7Row] none =
      .unauthorized "Access token is required" ∧
    authenticateToken "sek".toList 5 [c7Row] (some "naked-token".toList) =
      .unauthorized "Access token is required" ∧
    authenticateToken "sek".toList 5 [c7Row]
        (some ("Bearer".toList ++ ' ' :: mkToken "bad".toList "u7".toList "a@b".toList 9)) =
      .unauthorized "Invalid or expired token" ∧
    authenticateToken "sek".toList 5 [c7Row]
        (some ("Bearer".toList ++ ' ' :: mkToken "sek".toList "u7".toList "a@b".toList 3)) =
      .unauthorized "Invalid or expired token" ∧
    authenticateToken "sek".toList 5 [c7Row]
        (some ("Bearer".toList ++ ' ' :: mkToken "sek".toList "gone".toList "a@b".toList 9)) =
      .unauthorized "User not found" ∧
    authenticateToken "sek".toList 5 [c7Row]
        (some ("Bearer".toList ++ ' ' :: mkToken "sek".toList "u7".toList "a@b".toList 9)) =
      .ok (mapRowToUser c7Row) := by
  have h := c7_authenticate_cases "sek".toList 5 [c7Row]
  refine ⟨h.1, ?_, ?_, ?_, ?_, ?_⟩
  · exact h.2.1 "naked-token".toList (by decide)
  · exact h.2.2.1 "Bearer".toList "bad".toList "u7".toList "a@b".toList 9
      (by decide) (by decide) (by decide) (by decide) (by decide) (by decide)
  · exact h.2.2.2.1 "Bearer".toList "u7".toList "a@b".toList 3
      (by decide) (by decide) (by decide) (by decide) (by decide) (by decide)
  · exact h.2.2.2.2.1 "Bearer".toList "gone".toList "a@b".toList 9
      (by decide) (by decide) (by decide) (by decide) (by decide) (by decide)
      (by decide)
  · exact h.2.2.2.2.2 "Bearer".toList "u7".toList "a@b".toList 9
      (mapRowToUser c7Row) (by decide) (by decide) (by decide) (by decide)
      (by decide) (by decide) (by decide)

/-- C10 counterexample: the claim says that for every Authorization header
containing a space, the substring after the first space is used as the
token. For the header `Basic a b` the code uses `a` (the segment between the
first and second space, `split(' ')[1]`), not the substring after the first
space, which is `a b`. -/
theorem c10_counterexample :
    (' ' ∈ "Basic a b".toList) ∧
    extractToken (some "Basic a b".toList) = some "a".toList ∧
    substringAfterFirstSpace "Basic a b".toList = "a b".toList ∧
    "a".toList ≠ "a b".toList := by
  decide

/-- C10 (amended): the gate never checks the authorization scheme — the
token is the segment of the header between the first and second space
(which for a header with exactly one space is the substring after that
space), so any two schemes are interchangeable (`Basic <jwt>` authenticates
exactly as `Bearer <jwt>`); a header with no space at all is treated as a
missing token and rejected with 401 Unauthorized. -/
theorem c10_scheme_never_checked (secret : List Char) (now : Nat)
    (db : List UserRow) :
    (∀ sch tok, ' ' ∉ sch → ' ' ∉ tok → tok ≠ [] →
      extractToken (some (sch ++ ' ' :: tok)) = some tok) ∧
    (∀ sch₁ sch₂ rest, ' ' ∉ sch₁ → ' ' ∉ sch₂ →
      authenticateToken secret now db (some (sch₁ ++ ' ' :: rest)) =
        authenticateToken secret now db (some (sch₂ ++ ' ' :: rest))) ∧
    (∀ tok, ' ' ∉ tok →
      authenticateToken secret now db (some tok) =
        .unauthorized "Access token is required") := by
  refine ⟨?_, ?_, ?_⟩
  · intro sch tok hsch htok hne
    exact extractToken_some hsch htok hne
  · intro sch₁ sch₂ rest h₁ h₂
    unfold authenticateToken
    rw [extractToken_scheme h₁, extractToken_scheme h₂]
  · intro tok htok
    unfold authenticateToken
    rw [extractToken_no_space htok]

/-- C10 witness: a `Basic`-scheme header authenticates exactly as the same
token under `Bearer`, and a bare token is rejected as missing. -/
theorem c10_witness :
    extractToken (some ("Basic".toList ++ ' ' :: "tok123".toList)) =
      some "tok123".toList ∧
    authenticateToken "sek".toList 5 []
        (some ("Basic".toList ++ ' ' :: "tok123".toList)) =
      authenticateToken "sek".toList 5 []
        (some ("Bearer".toList ++ ' ' :: "tok123".toList)) ∧
    authenticateToken "sek".toList 5 [] (some "tok123".toList) =
      .unauthorized "Access token is required" := by
  have h := c10_scheme_never_checked "sek".toList 5 []
  exact ⟨h.1 "Basic".toList "tok123".toList (by decide) (by decide) (by decide),
    h.2.1 "Basic".toList "Bearer".toList "tok123".toList (by decide) (by decide),
    h.2.2 "tok123".toList (by decide)⟩

end DayPlanner
